import Mathlib

/-!
Shallow embedding of the core logic of `cargo-instruments`
(src/instruments.rs, src/app.rs, src/opt.rs): tool-variant command
construction, template-listing parsers, semver parsing, trace-path
planning, target resolution and artifact selection.

Rust standard-library string operations used by the code are modelled
over `List Char` (`String.data`) with executable definitions; subprocess
effects (process output, the controlling tty, the current time, the
existence of the trace directory) are passed in as explicit data.
-/

namespace CargoInstruments

/-! ### Models of Rust `str` primitives -/

/-- Model of Rust `char::is_whitespace` restricted to the ASCII whitespace
that appears in the tool outputs (space, tab, newline, carriage return). -/
def isWsChar (c : Char) : Bool :=
  c == ' ' || c == '\t' || c == '\n' || c == '\r'

/-- Model of Rust `str::trim` on character lists. -/
def rustTrim (cs : List Char) : List Char :=
  ((cs.dropWhile isWsChar).reverse.dropWhile isWsChar).reverse

/-- `str::trim` lifted to `String`. -/
def trimStr (s : String) : String :=
  ⟨rustTrim s.data⟩

/-- Model of Rust `str::trim_matches('"')`: strip all leading and trailing
double quotes. -/
def rustTrimQuotes (cs : List Char) : List Char :=
  ((cs.dropWhile (· = '"')).reverse.dropWhile (· = '"')).reverse

/-- `str::trim_matches('"')` lifted to `String`. -/
def trimQuotesStr (s : String) : String :=
  ⟨rustTrimQuotes s.data⟩

/-- Model of Rust `str::starts_with` for a string pattern. -/
def startsWithStr (s pre : String) : Bool :=
  pre.data.isPrefixOf s.data

/-- Split a character list at every occurrence of `sep`
(model of Rust `str::split(sep)` as a list of fragments). -/
def splitChar (sep : Char) : List Char → List (List Char)
  | [] => [[]]
  | c :: cs =>
    match splitChar sep cs with
    | [] => [[]]
    | h :: t => if c = sep then [] :: h :: t else (c :: h) :: t

/-- Drop a single trailing carriage return (Rust `str::lines` behaviour). -/
def stripCr (cs : List Char) : List Char :=
  match cs.reverse with
  | '\r' :: rest => rest.reverse
  | _ => cs

/-- Model of Rust `str::lines`: split on newline, drop one trailing empty
fragment produced by a final newline, strip a trailing `\r` per line. -/
def rustLines (s : String) : List String :=
  if s.data = [] then []
  else
    let parts := splitChar '\n' s.data
    let parts := if parts.getLast? = some [] then parts.dropLast else parts
    parts.map (fun cs => ⟨stripCr cs⟩)

/-- Model of Rust `str::replace(' ', "-")`. -/
def replaceSpaceDash (s : String) : String :=
  ⟨s.data.map (fun c => if c = ' ' then '-' else c)⟩

/-- Model of Rust `std::path::Path::file_name`: the final component of a
`/`-separated path, `none` for paths ending in `..`, `.` or with no
component. -/
def fileName (s : String) : Option String :=
  match ((splitChar '/' s.data).filter (· ≠ [])).getLast? with
  | none => none
  | some comp => if comp = ['.'] ∨ comp = ['.', '.'] then none else some ⟨comp⟩

/-- Split a file name before its final dot: `file_stem` keeps everything
before the last `.` unless that prefix is empty (hidden files). -/
def stemOfFileName (cs : List Char) : List Char :=
  let rev := cs.reverse
  match rev.dropWhile (· ≠ '.') with
  | [] => cs
  | _ :: before => if before = [] then cs else before.reverse

/-- Model of Rust `std::path::Path::file_stem`. -/
def fileStem (s : String) : Option String :=
  (fileName s).map (fun n => ⟨stemOfFileName n.data⟩)

/-! ### Data model (src/instruments.rs, src/opt.rs) -/

/-- `XcodeInstruments` (src/instruments.rs): which profiler generation is
installed. `xcTrace` is the spec's `TraceRecorder`, `instrumentsBinary`
the spec's `LegacyBinary`. -/
inductive XcodeInstruments
  | xcTrace
  | instrumentsBinary
  deriving DecidableEq, Repr

/-- `TemplateCatalog` (src/instruments.rs). -/
structure TemplateCatalog where
  standard_templates : List String
  custom_templates : List String
  deriving DecidableEq, Repr

/-- `Target` (src/opt.rs): the kind of build target to profile. -/
inductive Target
  | main
  | «example» (name : String)
  | bin (name : String)
  | bench (name : String)
  | test (harness : String) (testName : String)
  deriving DecidableEq, Repr

/-- The selector and profiling fields of `AppConfig` (src/opt.rs) that the
resolution and path-planning logic reads. -/
structure AppConfig where
  «example» : Option String
  bin : Option String
  bench : Option String
  harness : Option String
  test : Option String
  trace_filepath : Option String
  time_limit : Option Nat
  target_args : List String
  deriving DecidableEq, Repr

/-- `AppConfig::get_target` (src/opt.rs:206-220): precedence
example > bin > bench > harness (with the test filter, empty when absent)
> `Main`. -/
def get_target (c : AppConfig) : Target :=
  match c.example with
  | some e => .example e
  | none =>
    match c.bin with
    | some b => .bin b
    | none =>
      match c.bench with
      | some b => .bench b
      | none =>
        match c.harness with
        | some h => .test h (c.test.getD "")
        | none => .main

/-- The mutation in `run` (src/app.rs:62-64): when the target is a test
harness, insert the test-name filter at position 0 of the forwarded
target arguments. -/
def insertTestFilter (t : Target) (args : List String) : List String :=
  match t with
  | .test _ tests => tests :: args
  | _ => args

/-! ### Profiling command construction (src/instruments.rs:80-119, 454-461) -/

/-- A subprocess invocation: program plus argument list, the state built up
by `std::process::Command`. -/
structure Command where
  program : String
  args : List String
  deriving DecidableEq, Repr

/-- `XcodeInstruments::profiling_command` (src/instruments.rs:80-119).
The controlling terminal probe `get_tty()` is passed in as `tty`. -/
def profiling_command (tool : XcodeInstruments) (template_name : String)
    (trace_filepath : String) (time_limit : Option Nat) (tty : Option String) :
    Command :=
  match tool with
  | .xcTrace =>
    let args := ["xctrace", "record"]
    let args := args ++ ["--template", template_name]
    let args := args ++
      (match time_limit with
       | some limitMillis => ["--time-limit", toString limitMillis ++ "ms"]
       | none => [])
    let args := args ++ ["--output", trace_filepath]
    let args := args ++
      (match tty with
       | some t => ["--target-stdin", t, "--target-stdout", t]
       | none => [])
    let args := args ++ ["--launch", "--"]
    { program := "xcrun", args := args }
  | .instrumentsBinary =>
    let args := ["-t", template_name]
    let args := args ++ ["-D", trace_filepath]
    let args := args ++
      (match time_limit with
       | some limit => ["-l", toString limit]
       | none => [])
    { program := "instruments", args := args }

/-- The argument appending done by `profile_target`
(src/instruments.rs:454-461): the target executable path, then the
forwarded arguments when non-empty. -/
def profile_target_command (tool : XcodeInstruments) (template_name : String)
    (trace_filepath : String) (time_limit : Option Nat) (tty : Option String)
    (target_filepath : String) (target_args : List String) : Command :=
  let c := profiling_command tool template_name trace_filepath time_limit tty
  let c := { c with args := c.args ++ [target_filepath] }
  if target_args.isEmpty then c
  else { c with args := c.args ++ target_args }

/-! ### Template-name aliases (src/instruments.rs:400-419) -/

/-- `resolve_template_name` (src/instruments.rs:400-408). -/
def resolve_template_name (template_name : String) : String :=
  if template_name = "time" then "Time Profiler"
  else if template_name = "alloc" then "Allocations"
  else if template_name = "io" then "File Activity"
  else if template_name = "sys" then "System Trace"
  else template_name

/-- `abbrev_name` (src/instruments.rs:411-419). -/
def abbrev_name (template_name : String) : Option String :=
  if template_name = "Time Profiler" then some "time"
  else if template_name = "Allocations" then some "alloc"
  else if template_name = "File Activity" then some "io"
  else if template_name = "System Trace" then some "sys"
  else none

/-! ### Template-listing parsers (src/instruments.rs:186-224, 253-289) -/

/-- The scan building `standard_templates` in `parse_xctrace_template_list`
(src/instruments.rs:203-209): a `by_ref` `take_while` over trimmed lines
that stops at — and consumes — the first section marker or blank line. -/
def takeStandardSection : List String → (List String × List String)
  | [] => ([], [])
  | l :: ls =>
    let t := trimStr l
    if startsWithStr t "=" || t == "" then ([], ls)
    else
      let scan := takeStandardSection ls
      (t :: scan.1, scan.2)

/-- `parse_xctrace_template_list` (src/instruments.rs:186-224) applied to the
lines of the selected output stream. -/
def parse_xctrace_template_list_core (ls : List String) :
    Except String TemplateCatalog :=
  let scan := takeStandardSection (ls.drop 1)
  let standard_templates := scan.1
  let rest := scan.2
  if standard_templates.isEmpty then
    .error "No available templates. Please check your Xcode Instruments installation."
  else
    let custom_templates :=
      (rest.map trimStr).dropWhile (fun t => startsWithStr t "=" || t == "")
    .ok ⟨standard_templates, custom_templates⟩

/-- `parse_xctrace_template_list` (src/instruments.rs:186-224): the raw
stdout/stderr of `xcrun xctrace list templates`; stderr is used exactly
when stdout is empty (src/instruments.rs:198). -/
def parse_xctrace_template_list (stdout stderr : String) :
    Except String TemplateCatalog :=
  let output := if stdout.data = [] then stderr else stdout
  parse_xctrace_template_list_core (rustLines output)

/-- Trim whitespace then surrounding double quotes, the per-line map of
`parse_instruments_template_list` (src/instruments.rs:268, 281). -/
def trimQuoted (l : String) : String :=
  trimQuotesStr (trimStr l)

/-- `parse_instruments_template_list` (src/instruments.rs:253-289) applied to
the stdout lines. The `file_stem().unwrap()` of the source never fails on
lines of the documented grammar; it is modelled with a default. -/
def parse_instruments_template_list_core (ls : List String) :
    Except String TemplateCatalog :=
  let standard_templates :=
    ((ls.drop 1).map trimQuoted).takeWhile
      (fun t => !(startsWithStr t "~/Library/"))
  if standard_templates.isEmpty then
    .error "No available templates. Please check your Xcode Instruments installation."
  else
    let custom_templates :=
      (((ls.map trimQuoted).dropWhile
          (fun t => !(startsWithStr t "~/Library/"))).takeWhile
        (fun t => t != "")).map (fun t => (fileStem t).getD "")
    .ok ⟨standard_templates, custom_templates⟩

/-- `parse_instruments_template_list` (src/instruments.rs:253-289) on the raw
stdout of `instruments -s templates`. -/
def parse_instruments_template_list (stdout : String) :
    Except String TemplateCatalog :=
  parse_instruments_template_list_core (rustLines stdout)

/-! ### OS-version parsing (src/instruments.rs:141-155) -/

/-- One build output of the cargo collaborator: target name and artifact
path (the fields of `UnitOutput` read by `build_target`). -/
structure UnitOutput where
  targetName : String
  path : String
  deriving DecidableEq, Repr

/-- The build collaborator's result set: primary binaries and test-like
(test/bench harness) outputs, the fields of cargo's `Compilation` read by
`build_target`. -/
structure Compilation where
  binaries : List UnitOutput
  tests : List UnitOutput
  deriving DecidableEq, Repr

/-- The error outcomes of `build_target` (src/app.rs:139-173); each
constructor carries the data interpolated into the anyhow message. -/
inductive BuildError
  | noBenchmark (name : String)
  | noTest (name : String)
  | noTargetsFound
  | multipleTargets (names : List String)
  deriving DecidableEq, Repr

/-- The artifact-selection logic of `build_target` (src/app.rs:146-172) on
the collaborator's result. -/
def build_target (target : Target) (result : Compilation) :
    Except BuildError String :=
  match target with
  | .bench bench =>
    match result.tests.find? (fun u => u.targetName == bench) with
    | some u => .ok u.path
    | none => .error (.noBenchmark bench)
  | .test harness _ =>
    match result.tests.find? (fun u => u.targetName == harness) with
    | some u => .ok u.path
    | none => .error (.noTest harness)
  | _ =>
    match result.binaries with
    | [u] => .ok u.path
    | [] => .error .noTargetsFound
    | other => .error (.multipleTargets (other.map (·.targetName)))

/-! ### Trace-path planning (src/instruments.rs:366-397) -/

/-- The filesystem side effect of `prepare_trace_filepath`. -/
inductive FsAction
  | createDirAll (path : String)
  deriving DecidableEq, Repr

/-- `prepare_trace_filepath` (src/instruments.rs:366-397). The existence
probe on the trace directory and the chrono timestamp (already rendered
with the source's `%F_%H%M%S-%3f` millisecond format) are passed in as
data; the returned list holds the directory creations performed. -/
def prepare_trace_filepath (target_filepath template_name : String)
    (app_config : AppConfig) (workspace_root : String)
    (trace_dir_exists : Bool) (now : String) :
    List FsAction × Except String String :=
  match app_config.trace_filepath with
  | some path => ([], .ok path)
  | none =>
    let trace_dir := workspace_root ++ "/target/instruments"
    let actions := if trace_dir_exists then [] else [.createDirAll trace_dir]
    match fileStem target_filepath with
    | none => (actions, .error ("invalid target path " ++ target_filepath))
    | some target_shortname =>
      let trace_filename :=
        target_shortname ++ "_" ++ replaceSpaceDash template_name ++ "_" ++
          now ++ ".trace"
      (actions, .ok (trace_dir ++ "/" ++ trace_filename))

/-! ### General list lemmas used by the parser proofs -/

theorem takeWhile_append_all {α} (p : α → Bool) {xs : List α} (ys : List α)
    (h : ∀ x ∈ xs, p x = true) :
    (xs ++ ys).takeWhile p = xs ++ ys.takeWhile p := by
  induction xs with
  | nil => rfl
  | cons a l ih =>
    simp only [List.cons_append,
      List.takeWhile_cons_of_pos (h a (List.mem_cons_self a l)),
      ih (fun x hx => h x (List.mem_cons_of_mem a hx))]

theorem takeWhile_all_eq_self {α} (p : α → Bool) {xs : List α}
    (h : ∀ x ∈ xs, p x = true) : xs.takeWhile p = xs := by
  have := takeWhile_append_all p [] h
  simpa using this

theorem dropWhile_append_all {α} (p : α → Bool) {xs : List α} (ys : List α)
    (h : ∀ x ∈ xs, p x = true) :
    (xs ++ ys).dropWhile p = ys.dropWhile p := by
  induction xs with
  | nil => rfl
  | cons a l ih =>
    simp only [List.cons_append,
      List.dropWhile_cons_of_pos (h a (List.mem_cons_self a l)),
      ih (fun x hx => h x (List.mem_cons_of_mem a hx))]

theorem dropWhile_all_eq_nil {α} (p : α → Bool) {xs : List α}
    (h : ∀ x ∈ xs, p x = true) : xs.dropWhile p = [] := by
  have := dropWhile_append_all p [] h
  simpa using this

theorem dropWhile_all_false_eq_self {α} (p : α → Bool) {xs : List α}
    (h : ∀ x ∈ xs, p x = false) : xs.dropWhile p = xs := by
  cases xs with
  | nil => rfl
  | cons a l =>
    exact List.dropWhile_cons_of_neg (by simp [h a (List.mem_cons_self a l)])

theorem takeWhile_all_false_eq_nil {α} (p : α → Bool) {xs : List α}
    (h : ∀ x ∈ xs, p x = false) : xs.takeWhile p = [] := by
  cases xs with
  | nil => rfl
  | cons a l =>
    exact List.takeWhile_cons_of_neg (by simp [h a (List.mem_cons_self a l)])

/-! ### C1: profiling-command construction -/

/-- C1: for every template name, trace path, time limit, tty, target path
and forwarded arguments, the constructed command is exactly as specified:
for the modern recorder `xcrun xctrace record --template <name>`, then
`--time-limit <N>ms` exactly when a limit is set, then `--output <path>`,
then `--target-stdin <tty> --target-stdout <tty>` exactly when a tty was
identified, then `--launch --`, the target and the forwarded arguments;
for the legacy binary `instruments -t <name> -D <path>`, then `-l <N>`
(no unit suffix) exactly when a limit is set, then target and arguments. -/
theorem c1_profiling_command_flags (tmpl path tgt tty : String) (n : Nat)
    (ttyOpt : Option String) (args : List String) :
    (profile_target_command .xcTrace tmpl path (some n) (some tty) tgt args =
      ⟨"xcrun",
        ["xctrace", "record", "--template", tmpl, "--time-limit",
          toString n ++ "ms", "--output", path, "--target-stdin", tty,
          "--target-stdout", tty, "--launch", "--", tgt] ++ args⟩) ∧
    (profile_target_command .xcTrace tmpl path none (some tty) tgt args =
      ⟨"xcrun",
        ["xctrace", "record", "--template", tmpl, "--output", path,
          "--target-stdin", tty, "--target-stdout", tty, "--launch", "--",
          tgt] ++ args⟩) ∧
    (profile_target_command .xcTrace tmpl path (some n) none tgt args =
      ⟨"xcrun",
        ["xctrace", "record", "--template", tmpl, "--time-limit",
          toString n ++ "ms", "--output", path, "--launch", "--", tgt] ++
          args⟩) ∧
    (profile_target_command .xcTrace tmpl path none none tgt args =
      ⟨"xcrun",
        ["xctrace", "record", "--template", tmpl, "--output", path,
          "--launch", "--", tgt] ++ args⟩) ∧
    (profile_target_command .instrumentsBinary tmpl path (some n) ttyOpt tgt
        args =
      ⟨"instruments", ["-t", tmpl, "-D", path, "-l", toString n, tgt] ++
        args⟩) ∧
    (profile_target_command .instrumentsBinary tmpl path none ttyOpt tgt
        args =
      ⟨"instruments", ["-t", tmpl, "-D", path, tgt] ++ args⟩) := by
  refine ⟨?_, ?_, ?_, ?_, ?_, ?_⟩ <;> cases args <;> rfl

/-! ### C8: template-name alias resolution -/

/-- C8: alias resolution is a left-inverse of the abbreviation table — for
every template name with an abbreviation, resolving the abbreviation
returns the full name, and every string outside the fixed alias table
resolves to itself. -/
theorem c8_alias_left_inverse :
    (∀ n a, abbrev_name n = some a → resolve_template_name a = n) ∧
    (∀ s, s ≠ "time" → s ≠ "alloc" → s ≠ "io" → s ≠ "sys" →
      resolve_template_name s = s) := by
  constructor
  · intro n a h
    unfold abbrev_name at h
    split_ifs at h with h1 h2 h3 h4
    · cases h; subst h1; decide
    · cases h; subst h2; decide
    · cases h; subst h3; decide
    · cases h; subst h4; decide
  · intro s h1 h2 h3 h4
    unfold resolve_template_name
    rw [if_neg h1, if_neg h2, if_neg h3, if_neg h4]

/-- Witness for C8 at concrete inputs: the `time` abbreviation resolves to
`Time Profiler`, and a non-alias string passes through unchanged. -/
theorem c8_alias_left_inverse_witness :
    resolve_template_name "time" = "Time Profiler" ∧
      resolve_template_name "Zombies" = "Zombies" :=
  ⟨c8_alias_left_inverse.1 "Time Profiler" "time" (by decide),
   c8_alias_left_inverse.2 "Zombies" (by decide) (by decide) (by decide)
     (by decide)⟩

/-! ### C9: target-resolution precedence -/

/-- C9: for every selector configuration, including ones with several
selector fields simultaneously present, target resolution follows the
fixed total precedence example > bin > bench > harness/test > default
Main. -/
theorem c9_target_precedence (c : AppConfig) :
    (∀ e, c.example = some e → get_target c = .example e) ∧
    (c.example = none → ∀ b, c.bin = some b → get_target c = .bin b) ∧
    (c.example = none → c.bin = none → ∀ b, c.bench = some b →
      get_target c = .bench b) ∧
    (c.example = none → c.bin = none → c.bench = none → ∀ h,
      c.harness = some h → get_target c = .test h (c.test.getD "")) ∧
    (c.example = none → c.bin = none → c.bench = none → c.harness = none →
      get_target c = .main) := by
  refine ⟨?_, ?_, ?_, ?_, ?_⟩ <;> (intros; unfold get_target; simp_all)

/-- Witness for C9: with both the example and bin selectors present the
example selector wins, and the empty configuration resolves to Main. -/
theorem c9_target_precedence_witness :
    get_target ⟨some "ex", some "b", none, none, none, none, none, []⟩ =
      .example "ex" ∧
    get_target ⟨none, none, none, none, none, none, none, []⟩ = .main :=
  ⟨(c9_target_precedence _).1 "ex" rfl,
   (c9_target_precedence _).2.2.2.2 rfl rfl rfl rfl⟩

/-! ### C10: test-filter insertion before profiling -/

/-- C10: whenever the resolved target is `Test(harness, test_name)`, the
orchestrator inserts `test_name` at position 0 of the forwarded
target-argument list, so the harness receives the filter ahead of all
user-supplied arguments; when no `--test` flag was given the inserted
string is empty. -/
theorem c10_test_filter_inserted_first :
    (∀ h t (args : List String),
      insertTestFilter (.test h t) args = t :: args) ∧
    (∀ (c : AppConfig) (args : List String) h,
      c.example = none → c.bin = none → c.bench = none →
      c.harness = some h → c.test = none →
      insertTestFilter (get_target c) args = "" :: args) := by
  constructor
  · intro h t args
    rfl
  · intro c args h he hb hbe hh ht
    unfold get_target insertTestFilter
    simp_all

/-- Witness for C10: a harness-only configuration gets the empty filter
inserted ahead of the user arguments. -/
theorem c10_test_filter_inserted_first_witness :
    insertTestFilter
        (get_target ⟨none, none, none, some "integration", none, none, none,
          ["a", "b"]⟩)
        ["a", "b"] = ["", "a", "b"] :=
  c10_test_filter_inserted_first.2
    ⟨none, none, none, some "integration", none, none, none, ["a", "b"]⟩
    ["a", "b"] "integration" rfl rfl rfl rfl rfl

/-! ### C5: artifact selection -/

/-- C5: post-build artifact selection — for a Bench target the test-like
outputs are searched for the bench name and its path returned, failing if
absent; for a Test target the same search keyed on the harness name; for
all other targets the primary-binary list must contain exactly one entry,
an empty list failing with no-targets-found and two or more failing with
an ambiguity error reporting the offending target names. -/
theorem c5_artifact_selection (res : Compilation) :
    (∀ b u, res.tests.find? (fun v => v.targetName == b) = some u →
      build_target (.bench b) res = .ok u.path) ∧
    (∀ b, (∀ u ∈ res.tests, u.targetName ≠ b) →
      build_target (.bench b) res = .error (.noBenchmark b)) ∧
    (∀ h t u, res.tests.find? (fun v => v.targetName == h) = some u →
      build_target (.test h t) res = .ok u.path) ∧
    (∀ h t, (∀ u ∈ res.tests, u.targetName ≠ h) →
      build_target (.test h t) res = .error (.noTest h)) ∧
    (∀ tgt : Target, (∀ b, tgt ≠ .bench b) → (∀ h t, tgt ≠ .test h t) →
      (res.binaries = [] →
        build_target tgt res = .error .noTargetsFound) ∧
      (∀ u, res.binaries = [u] → build_target tgt res = .ok u.path) ∧
      (∀ u₁ u₂ rest, res.binaries = u₁ :: u₂ :: rest →
        build_target tgt res =
          .error (.multipleTargets ((u₁ :: u₂ :: rest).map
            (fun u => u.targetName))))) := by
  refine ⟨?_, ?_, ?_, ?_, ?_⟩
  · intro b u h
    simp [build_target, h]
  · intro b hb
    have hn : res.tests.find? (fun v => v.targetName == b) = none :=
      List.find?_eq_none.mpr (fun u hu => by simp [hb u hu])
    simp [build_target, hn]
  · intro h t u hf
    simp [build_target, hf]
  · intro h t hh
    have hn : res.tests.find? (fun v => v.targetName == h) = none :=
      List.find?_eq_none.mpr (fun u hu => by simp [hh u hu])
    simp [build_target, hn]
  · intro tgt hb ht
    refine ⟨?_, ?_, ?_⟩
    · intro h0
      cases tgt with
      | bench b => exact absurd rfl (hb b)
      | test h t => exact absurd rfl (ht h t)
      | main => simp [build_target, h0]
      | «example» n => simp [build_target, h0]
      | bin n => simp [build_target, h0]
    · intro u h1
      cases tgt with
      | bench b => exact absurd rfl (hb b)
      | test h t => exact absurd rfl (ht h t)
      | main => simp [build_target, h1]
      | «example» n => simp [build_target, h1]
      | bin n => simp [build_target, h1]
    · intro u₁ u₂ rest h2
      cases tgt with
      | bench b => exact absurd rfl (hb b)
      | test h t => exact absurd rfl (ht h t)
      | main => simp [build_target, h2]
      | «example» n => simp [build_target, h2]
      | bin n => simp [build_target, h2]

/-- Witness for C5, end-to-end scenario E: zero primary binaries for a Main
target fail with no-targets-found; two fail reporting both names. -/
theorem c5_artifact_selection_witness :
    build_target .main ⟨[], []⟩ = .error .noTargetsFound ∧
    build_target .main ⟨[⟨"a", "pa"⟩, ⟨"b", "pb"⟩], []⟩ =
      .error (.multipleTargets ["a", "b"]) :=
  ⟨((c5_artifact_selection ⟨[], []⟩).2.2.2.2 .main
      (fun _ h => Target.noConfusion h)
      (fun _ _ hh => Target.noConfusion hh)).1 rfl,
   ((c5_artifact_selection ⟨[⟨"a", "pa"⟩, ⟨"b", "pb"⟩], []⟩).2.2.2.2 .main
      (fun _ h => Target.noConfusion h)
      (fun _ _ hh => Target.noConfusion hh)).2.2 ⟨"a", "pa"⟩
      ⟨"b", "pb"⟩ [] rfl⟩

/-! ### C6: parsers never succeed with an empty standard list -/

/-- C6: both template parsers return an error rather than a successful
catalog whenever the standard-template list would be empty: every
successfully returned catalog has a non-empty `standard_templates` list. -/
theorem c6_success_implies_nonempty_standard :
    (∀ stdout stderr cat,
      parse_xctrace_template_list stdout stderr = .ok cat →
      cat.standard_templates ≠ []) ∧
    (∀ stdout cat, parse_instruments_template_list stdout = .ok cat →
      cat.standard_templates ≠ []) := by
  have hx : ∀ ls cat, parse_xctrace_template_list_core ls = .ok cat →
      cat.standard_templates ≠ [] := by
    intro ls cat h
    simp only [parse_xctrace_template_list_core] at h
    split at h
    · exact Except.noConfusion h
    · rename_i hcond
      cases h
      simpa using hcond
  have hl : ∀ ls cat, parse_instruments_template_list_core ls = .ok cat →
      cat.standard_templates ≠ [] := by
    intro ls cat h
    simp only [parse_instruments_template_list_core] at h
    split at h
    · exact Except.noConfusion h
    · rename_i hcond
      cases h
      simpa using hcond
  exact ⟨fun stdout stderr cat h => hx _ cat h,
         fun stdout cat h => hl _ cat h⟩

/-- Witness for C6 at the concrete listings of the end-to-end scenarios. -/
theorem c6_success_implies_nonempty_standard_witness :
    (["Allocations"] : List String) ≠ [] ∧
      (["Time Profiler", "Leaks"] : List String) ≠ [] :=
  ⟨c6_success_implies_nonempty_standard.1
      "== Standard Templates ==\nAllocations\n\n== Custom Templates ==\nFoo"
      "" ⟨["Allocations"], ["Foo"]⟩ rfl,
   c6_success_implies_nonempty_standard.2
      "Known Templates:\n\"Time Profiler\"\n\"Leaks\"\n\"~/Library/.../MyTemplate.tracetemplate\""
      ⟨["Time Profiler", "Leaks"], ["MyTemplate"]⟩ rfl⟩

/-! ### C7: trace-path planning -/

/-- C7: an explicit output path is returned verbatim with no directory
creation; otherwise the trace goes to `target/instruments` under the
project root (created recursively exactly when missing) with filename
`{artifact-stem}_{template-with-spaces-dashed}_{timestamp}.trace`; the
concrete scenario: stem `tries`, template `Time Profiler`, timestamp
`2024-01-01_120000-001` yields
`tries_Time-Profiler_2024-01-01_120000-001.trace`. -/
theorem c7_trace_path_planning :
    (∀ tf tn (c : AppConfig) root ex now p, c.trace_filepath = some p →
      prepare_trace_filepath tf tn c root ex now = ([], .ok p)) ∧
    (∀ tf tn (c : AppConfig) root now stem, c.trace_filepath = none →
      fileStem tf = some stem →
      prepare_trace_filepath tf tn c root false now =
        ([.createDirAll (root ++ "/target/instruments")],
         .ok (root ++ "/target/instruments" ++ "/" ++
           (stem ++ "_" ++ replaceSpaceDash tn ++ "_" ++ now ++
             ".trace"))) ∧
      prepare_trace_filepath tf tn c root true now =
        ([],
         .ok (root ++ "/target/instruments" ++ "/" ++
           (stem ++ "_" ++ replaceSpaceDash tn ++ "_" ++ now ++
             ".trace")))) ∧
    (prepare_trace_filepath "/w/target/debug/tries" "Time Profiler"
        ⟨none, none, none, none, none, none, none, []⟩ "/w" true
        "2024-01-01_120000-001" =
      ([],
       .ok "/w/target/instruments/tries_Time-Profiler_2024-01-01_120000-001.trace")) := by
  refine ⟨?_, ?_, rfl⟩
  · intro tf tn c root ex now p h
    simp [prepare_trace_filepath, h]
  · intro tf tn c root now stem h1 h2
    constructor <;> simp [prepare_trace_filepath, h1, h2]

/-- Witness for C7 at concrete inputs: explicit path returned verbatim with
no directory creation, and the computed path when the directory is
missing. -/
theorem c7_trace_path_planning_witness :
    prepare_trace_filepath "/w/target/debug/tries" "Time Profiler"
        ⟨none, none, none, none, none, some "/tmp/out.trace", none, []⟩
        "/w" false "2024-01-01_120000-001" = ([], .ok "/tmp/out.trace") ∧
    prepare_trace_filepath "/w/target/debug/tries" "Time Profiler"
        ⟨none, none, none, none, none, none, none, []⟩ "/w" false
        "2024-01-01_120000-001" =
      ([.createDirAll "/w/target/instruments"],
       .ok "/w/target/instruments/tries_Time-Profiler_2024-01-01_120000-001.trace") :=
  ⟨c7_trace_path_planning.1 "/w/target/debug/tries" "Time Profiler"
      ⟨none, none, none, none, none, some "/tmp/out.trace", none, []⟩ "/w"
      false "2024-01-01_120000-001" "/tmp/out.trace" rfl,
   (c7_trace_path_planning.2.1 "/w/target/debug/tries" "Time Profiler"
      ⟨none, none, none, none, none, none, none, []⟩ "/w"
      "2024-01-01_120000-001" "tries" rfl rfl).1⟩

/-! ### C2: modern template-listing parsing -/

theorem takeStandardSection_append (stds : List String) (l : String)
    (rest : List String)
    (hstop : (startsWithStr (trimStr l) "=" || trimStr l == "") = true)
    (h : ∀ s ∈ stds,
      (startsWithStr (trimStr s) "=" || trimStr s == "") = false) :
    takeStandardSection (stds ++ l :: rest) = (stds.map trimStr, rest) := by
  induction stds with
  | nil => simp [takeStandardSection, hstop]
  | cons a t ih =>
    have ha := h a (List.mem_cons_self a t)
    simp [takeStandardSection, ha,
      ih (fun s hs => h s (List.mem_cons_of_mem a hs))]

/-- C2: the modern parser reads stdout when it is non-empty and stderr
otherwise; on a listing of the documented grammar — the section marker
line, the standard templates, a blank line, the custom-section marker and
the custom templates — the standard group is the trimmed lines up to the
blank line and the custom group the subsequent non-empty lines; the
concrete scenario-C listing parses to standard `Allocations`, custom
`Foo`. -/
theorem c2_xctrace_template_parsing :
    (∀ out err : String, out.data = [] →
      parse_xctrace_template_list out err =
        parse_xctrace_template_list_core (rustLines err)) ∧
    (∀ out err : String, out.data ≠ [] →
      parse_xctrace_template_list out err =
        parse_xctrace_template_list_core (rustLines out)) ∧
    (∀ (marker m2 : String) (stds customs : List String),
      stds ≠ [] →
      (∀ s ∈ stds,
        (startsWithStr (trimStr s) "=" || trimStr s == "") = false) →
      startsWithStr (trimStr m2) "=" = true →
      (∀ s ∈ customs,
        (startsWithStr (trimStr s) "=" || trimStr s == "") = false) →
      parse_xctrace_template_list_core
          (marker :: (stds ++ "" :: m2 :: customs)) =
        .ok ⟨stds.map trimStr, customs.map trimStr⟩) ∧
    (parse_xctrace_template_list
        "== Standard Templates ==\nAllocations\n\n== Custom Templates ==\nFoo"
        "" =
      .ok ⟨["Allocations"], ["Foo"]⟩) := by
  refine ⟨?_, ?_, ?_, rfl⟩
  · intro out err h
    unfold parse_xctrace_template_list
    rw [if_pos h]
  · intro out err h
    unfold parse_xctrace_template_list
    rw [if_neg h]
  · intro marker m2 stds customs hne hstd hm2 hcust
    unfold parse_xctrace_template_list_core
    have hdrop1 : List.drop 1 (marker :: (stds ++ "" :: m2 :: customs)) =
        stds ++ "" :: m2 :: customs := rfl
    rw [hdrop1, takeStandardSection_append stds "" (m2 :: customs)
      (by decide) hstd]
    have hpred : ∀ t ∈ customs.map trimStr,
        (startsWithStr t "=" || t == "") = false := by
      intro t ht
      obtain ⟨s, hs, rfl⟩ := List.mem_map.mp ht
      exact hcust s hs
    have hdropw : (trimStr m2 :: customs.map trimStr).dropWhile
        (fun t => startsWithStr t "=" || t == "") = customs.map trimStr := by
      rw [List.dropWhile_cons_of_pos (by simp [hm2])]
      exact dropWhile_all_false_eq_self _ hpred
    cases stds with
    | nil => exact absurd rfl hne
    | cons s0 st => simp [hdropw]

/-- Witness for C2: the general grammar statement applied to the concrete
scenario-C lines, and stream selection applied to an empty stdout. -/
theorem c2_xctrace_template_parsing_witness :
    parse_xctrace_template_list_core
        ["== Standard Templates ==", "Allocations", "",
          "== Custom Templates ==", "Foo"] =
      .ok ⟨["Allocations"], ["Foo"]⟩ ∧
    parse_xctrace_template_list "" "x" =
      parse_xctrace_template_list_core (rustLines "x") :=
  ⟨c2_xctrace_template_parsing.2.2.1 "== Standard Templates =="
      "== Custom Templates ==" ["Allocations"] ["Foo"]
      (by decide) (by decide) (by decide) (by decide),
   c2_xctrace_template_parsing.1 "" "x" rfl⟩

/-! ### C3: legacy template-listing parsing -/

/-- C3: the legacy parser skips the header line, takes quote-trimmed lines
as standard templates until the first line starting with the `~/Library/`
path prefix, and maps the remaining lines to custom templates named by
the file's base name with quotes, path and extension stripped; the
concrete scenario-B listing parses to standard `Time Profiler`, `Leaks`
and custom `MyTemplate`. -/
theorem c3_instruments_template_parsing :
    (∀ (header : String) (stds customs : List String),
      stds ≠ [] →
      startsWithStr (trimQuoted header) "~/Library/" = false →
      (∀ s ∈ stds, startsWithStr (trimQuoted s) "~/Library/" = false) →
      (∀ s ∈ customs, startsWithStr (trimQuoted s) "~/Library/" = true ∧
        trimQuoted s ≠ "") →
      parse_instruments_template_list_core (header :: (stds ++ customs)) =
        .ok ⟨stds.map trimQuoted,
             customs.map (fun s => (fileStem (trimQuoted s)).getD "")⟩) ∧
    (parse_instruments_template_list
        "Known Templates:\n\"Time Profiler\"\n\"Leaks\"\n\"~/Library/.../MyTemplate.tracetemplate\"" =
      .ok ⟨["Time Profiler", "Leaks"], ["MyTemplate"]⟩) := by
  refine ⟨?_, rfl⟩
  intro header stds customs hne hh hstd hcust
  unfold parse_instruments_template_list_core
  have hdrop1 : List.drop 1 (header :: (stds ++ customs)) =
      stds ++ customs := rfl
  have hstdall : ∀ t ∈ stds.map trimQuoted,
      (!startsWithStr t "~/Library/") = true := by
    intro t ht
    obtain ⟨s, hs, rfl⟩ := List.mem_map.mp ht
    simp [hstd s hs]
  have hstdpipe : ((stds ++ customs).map trimQuoted).takeWhile
      (fun t => !startsWithStr t "~/Library/") = stds.map trimQuoted := by
    rw [List.map_append, takeWhile_append_all _ _ hstdall]
    cases customs with
    | nil => simp
    | cons c ct =>
      rw [List.map_cons, List.takeWhile_cons_of_neg
        (by simp [(hcust c (List.mem_cons_self c ct)).1])]
      simp
  have hcustpipe : ((header :: (stds ++ customs)).map trimQuoted).dropWhile
      (fun t => !startsWithStr t "~/Library/") = customs.map trimQuoted := by
    rw [List.map_cons, List.dropWhile_cons_of_pos (by simp [hh]),
      List.map_append, dropWhile_append_all _ _ hstdall]
    exact dropWhile_all_false_eq_self _ (by
      intro t ht
      obtain ⟨s, hs, rfl⟩ := List.mem_map.mp ht
      simp [(hcust s hs).1])
  have htake : (customs.map trimQuoted).takeWhile (fun t => t != "") =
      customs.map trimQuoted := by
    refine takeWhile_all_eq_self _ ?_
    intro t ht
    obtain ⟨s, hs, rfl⟩ := List.mem_map.mp ht
    simp [(hcust s hs).2]
  rw [hdrop1, hstdpipe, hcustpipe, htake]
  cases stds with
  | nil => exact absurd rfl hne
  | cons s0 st => simp [Function.comp]

/-- Witness for C3: the general grammar statement applied to the concrete
scenario-B lines. -/
theorem c3_instruments_template_parsing_witness :
    parse_instruments_template_list_core
        ["Known Templates:", "\"Time Profiler\"", "\"Leaks\"",
          "\"~/Library/.../MyTemplate.tracetemplate\""] =
      .ok ⟨["Time Profiler", "Leaks"], ["MyTemplate"]⟩ :=
  c3_instruments_template_parsing.1 "Known Templates:"
    ["\"Time Profiler\"", "\"Leaks\""]
    ["\"~/Library/.../MyTemplate.tracetemplate\""]
    (by decide) (by decide) (by decide) (by decide)

/-! ### C4: OS-version parsing -/

end CargoInstruments
